import Mathlib

/-!
Verification development for the `mantra-cli` utility module
(`src/lib/utils.js`): configuration resolution (defaults, overrides,
YAML config loading), template rendering, and marker-based file editing.

JavaScript objects holding the configuration are modelled by the
structure `Config`; partial override documents by `Overrides`.  The
single mutable object `DEFAULT_CONFIG` is modelled by threading its
current value explicitly through every function that touches it: a
function that in JavaScript reads or mutates the global object takes the
object's current value as an argument and returns its value afterwards.
Filesystem and YAML-parser outcomes are passed in as explicit arguments
(a shallow embedding of the synchronous, blocking I/O of the source).
-/

set_option autoImplicit false

namespace MantraCli

/-- A configuration object with the two recognized keys of
`DEFAULT_CONFIG` in `src/lib/utils.js`: `tabSize` and `storybook`. -/
structure Config where
  tabSize : Int
  storybook : Bool
deriving DecidableEq, Repr

/-- A partial configuration document (user overrides): each recognized
key is optionally present.  Models the `overrides` / parsed user-config
objects passed to `_.assign`. -/
structure Overrides where
  tabSize : Option Int
  storybook : Option Bool
deriving DecidableEq, Repr

/-- The compile-time value of `DEFAULT_CONFIG` (utils.js lines 10-13):
`{tabSize: 2, storybook: false}`. -/
def DEFAULT_CONFIG : Config := { tabSize := 2, storybook := false }

/-- `_.assign(target, source)`: every key present in `source` replaces
the same key in `target`; keys absent from `source` are retained.
Returns the resulting value of the (mutated) target object. -/
def lodashAssign (target : Config) (source : Overrides) : Config :=
  { tabSize := source.tabSize.getD target.tabSize
    storybook := source.storybook.getD target.storybook }

/-- `_.clone(obj)`: a shallow copy.  On the value level the copy is
identical; cloning matters only for mutation, which the state-threading
below makes explicit. -/
def lodashClone (obj : Config) : Config := obj

/-- `generateConfig(overrides)` (utils.js lines 22-26): clones
`DEFAULT_CONFIG`, then `_.assign`s the overrides onto the clone.
`defaultObj` is the current value of the `DEFAULT_CONFIG` object; the
result pairs the returned config with the value of `DEFAULT_CONFIG`
afterwards (unchanged, because the mutation hits the clone). -/
def generateConfig (defaultObj : Config) (overrides : Overrides) :
    Config × Config :=
  let config := lodashClone defaultObj
  (lodashAssign config overrides, defaultObj)

/-- A JavaScript error as observed by `checkFileExists`: only its `code`
property is inspected. -/
structure JsError where
  code : String
deriving DecidableEq, Repr

/-- The outcome of `fs.lstatSync(path)`: `none` means success (the path
exists); `some e` means the call threw error `e`. -/
abbrev StatOutcome := Option JsError

/-- `checkFileExists(path)` (utils.js lines 130-142): `lstatSync`
succeeds → `true`; throws with code `ENOENT` → `false`; throws with any
other code → the error is rethrown. -/
def checkFileExists (stat : StatOutcome) : Except JsError Bool :=
  match stat with
  | none => .ok true
  | some e => if e.code = "ENOENT" then .ok false else .error e

/-- An error escaping `readConfig`: either a filesystem error rethrown
by `checkFileExists`, or a YAML parse error from `yaml.safeLoad` inside
`parseYamlFromFile`. -/
inductive CliError where
  | fsError (e : JsError)
  | yamlError (msg : String)
deriving DecidableEq, Repr

/-- `readConfig()` (utils.js lines 188-199).  `stat` is the outcome of
the `lstatSync` on `./mantra_cli.yaml`; `parsed` is the outcome
`yaml.safeLoad` would produce for the file (consulted only when the file
exists); `defaultObj` is the current value of the `DEFAULT_CONFIG`
object.  The code does `let config = DEFAULT_CONFIG` — an alias, not a
copy — and, when the user config exists, `_.assign(config, userConfig)`,
which mutates the aliased `DEFAULT_CONFIG` object in place.  The result
pairs the returned config with the value of `DEFAULT_CONFIG` after the
call. -/
def readConfig (stat : StatOutcome) (parsed : Except String Overrides)
    (defaultObj : Config) : Except CliError (Config × Config) :=
  match checkFileExists stat with
  | .error e => .error (.fsError e)
  | .ok true =>
      match parsed with
      | .error msg => .error (.yamlError msg)
      | .ok userConfig =>
          let config := lodashAssign defaultObj userConfig
          .ok (config, config)
  | .ok false => .ok (defaultObj, defaultObj)

/-!
Template rendering (`getFileContent`, utils.js lines 84-92).

`fs.readFileSync(templatePath)` with no encoding option returns a
`Buffer` (raw bytes); `_.template(templateContent)(templateVariables)`
coerces the buffer to text and interpolates.  A value that is a Buffer
is modelled as `FileData.bytes s` where `s` is the text the bytes decode
to (template files are text); a string value as `FileData.text s`.  The
two are distinct values, as Buffer and string are in JavaScript.

Modelled from the spec: lodash's `_.template` is a dependency whose code
is not in `src/`.  Per the spec it is "a single-pass string-
interpolation mechanism substituting `${expr}`-style placeholders
evaluated against the variable mapping; unknown variable references are
an error (fatal, not silently blanked)" — which matches lodash's ES
template delimiter and its `ReferenceError` on undefined variables.
Placeholders are modelled as simple variable references `${name}`. -/

/-- A lexed piece of a template: literal text or a `${name}` variable
reference.  Characters are kept as lists for easy induction. -/
inductive Tok where
  | lit (s : List Char)
  | ref (name : List Char)
deriving DecidableEq, Repr

/-- Single-pass lexer for `${name}` placeholders.  `inRef` is true while
scanning the name inside an opened `${`; `acc` holds the characters of
the current piece in reverse.  An unterminated `${` is kept as literal
text. -/
def tokenizeAux : Bool → List Char → List Char → List Tok
  | false, acc, [] => [Tok.lit acc.reverse]
  | false, acc, '$' :: '{' :: rest => Tok.lit acc.reverse :: tokenizeAux true [] rest
  | false, acc, c :: rest => tokenizeAux false (c :: acc) rest
  | true, acc, [] => [Tok.lit ('$' :: '{' :: acc.reverse)]
  | true, acc, '}' :: rest => Tok.ref acc.reverse :: tokenizeAux false [] rest
  | true, acc, c :: rest => tokenizeAux true (c :: acc) rest

/-- Lex a whole template. -/
def tokenize (s : List Char) : List Tok := tokenizeAux false [] s

/-- The variable names referenced by a lexed template. -/
def refsOf : List Tok → List (List Char)
  | [] => []
  | .lit _ :: rest => refsOf rest
  | .ref n :: rest => n :: refsOf rest

/-- The source text a lexed template came from (`${name}` references
printed back in their source form). -/
def flattenToks : List Tok → List Char
  | [] => []
  | .lit s :: rest => s ++ flattenToks rest
  | .ref n :: rest => '$' :: '{' :: n ++ '}' :: flattenToks rest

/-- The variable mapping supplied to a render call. -/
abbrev VarMap := List (String × String)

/-- Look a variable up in the mapping (first binding wins). -/
def varLookup (vars : VarMap) (n : List Char) : Option String :=
  match vars with
  | [] => none
  | (k, v) :: rest => if k.data = n then some v else varLookup rest n

/-- The error raised when a template references a variable absent from
the mapping (the spec's TemplateEvaluationError; lodash raises a
`ReferenceError` from the compiled template). -/
inductive TemplateError where
  | referenceError (name : String)
deriving DecidableEq, Repr

/-- Substitute every placeholder against the mapping in a single pass;
a reference to an absent variable is a fatal error. -/
def interpolate (vars : VarMap) : List Tok → Except TemplateError (List Char)
  | [] => .ok []
  | .lit s :: rest => (interpolate vars rest).map (s ++ ·)
  | .ref n :: rest =>
      match varLookup vars n with
      | some v => (interpolate vars rest).map (v.data ++ ·)
      | none => .error (.referenceError n.asString)

/-- A value returned by `getFileContent`: either a raw `Buffer` (tagged
with the text its bytes decode to) or a string. -/
inductive FileData where
  | bytes (content : String)
  | text (content : String)
deriving DecidableEq, Repr

/-- `getFileContent(templatePath, templateVariables)` (utils.js lines
84-92): reads the template file — `templateContent` is its content, held
as a Buffer — and, if `templateVariables` is supplied, renders
`_.template(templateContent)(templateVariables)` (a string); otherwise
returns the Buffer unchanged. -/
def getFileContent (templateContent : String) :
    Option VarMap → Except TemplateError FileData
  | some vars =>
      (interpolate vars (tokenize templateContent.data)).map
        fun cs => .text cs.asString
  | none => .ok (.bytes templateContent)

deriving instance DecidableEq for Except

/-- `List.asString` undoes `String.data`. -/
theorem asString_data (s : String) : s.data.asString = s := rfl

/-- If some referenced variable is absent from the mapping, interpolation
fails with a reference error. -/
theorem interpolate_error_of_missing (vars : VarMap) (toks : List Tok)
    (h : ∃ n ∈ refsOf toks, varLookup vars n = none) :
    ∃ m, interpolate vars toks = .error (.referenceError m) := by
  induction toks with
  | nil => simp [refsOf] at h
  | cons t rest ih =>
      cases t with
      | lit s =>
          obtain ⟨m, hm⟩ := ih (by simpa [refsOf] using h)
          exact ⟨m, by simp [interpolate, hm, Except.map]⟩
      | ref n =>
          rcases hn : varLookup vars n with _ | v
          · exact ⟨n.asString, by simp [interpolate, hn]⟩
          · have h2 : ∃ k ∈ refsOf rest, varLookup vars k = none := by
              obtain ⟨k, hk, hku⟩ := h
              simp [refsOf] at hk
              rcases hk with rfl | hk
              · rw [hn] at hku; cases hku
              · exact ⟨k, hk, hku⟩
            obtain ⟨m, hm⟩ := ih h2
            exact ⟨m, by simp [interpolate, hn, hm, Except.map]⟩

/-- Interpolating a template with no variable references succeeds and
returns its source text. -/
theorem interpolate_of_refs_nil (vars : VarMap) (toks : List Tok)
    (h : refsOf toks = []) :
    interpolate vars toks = .ok (flattenToks toks) := by
  induction toks with
  | nil => rfl
  | cons t rest ih =>
      cases t with
      | lit s =>
          simp [refsOf] at h
          simp [interpolate, flattenToks, ih h, Except.map]
      | ref n => simp [refsOf] at h

/-- The lexer loses nothing: flattening its output recovers the input
(with the pending piece and an open `${` accounted for). -/
theorem flattenToks_tokenizeAux (inRef : Bool) (acc s : List Char) :
    flattenToks (tokenizeAux inRef acc s) =
      (if inRef then '$' :: '{' :: (acc.reverse ++ s)
       else acc.reverse ++ s) := by
  induction inRef, acc, s using tokenizeAux.induct <;>
    simp [tokenizeAux, flattenToks, *]

/-- Flattening the lexed template gives back the template. -/
theorem flattenToks_tokenize (s : List Char) :
    flattenToks (tokenize s) = s := by
  simpa [tokenize] using flattenToks_tokenizeAux false [] s

end MantraCli

namespace MantraCli

/-- C5: a template referencing a variable absent from the supplied
mapping fails with a reference error (the spec's
TemplateEvaluationError); nothing is silently blanked. -/
theorem getFileContent_missing_var_fatal (tmpl : String) (vars : VarMap)
    (h : ∃ n ∈ refsOf (tokenize tmpl.data), varLookup vars n = none) :
    ∃ m, getFileContent tmpl (some vars) =
      .error (.referenceError m) := by
  obtain ⟨m, hm⟩ := interpolate_error_of_missing vars _ h
  exact ⟨m, by simp [getFileContent, hm, Except.map]⟩

/-- Witness for C5: rendering "Hello ${missing}" with an empty mapping
raises a reference error. -/
theorem getFileContent_missing_var_fatal_witness :
    ∃ m, getFileContent "Hello ${missing}" (some []) =
      .error (.referenceError m) :=
  getFileContent_missing_var_fatal "Hello ${missing}" []
    ⟨"missing".data, by decide, rfl⟩

/-- C6 counterexample: with no variables argument, `getFileContent`
returns the `fs.readFileSync` Buffer (raw bytes), not a string: at
template content "Hi" the result is `.ok (.bytes "Hi")`, which is not
the string result `.ok (.text "Hi")`. -/
theorem getFileContent_no_vars_counterexample :
    getFileContent "Hi" none = .ok (.bytes "Hi") ∧
    getFileContent "Hi" none ≠ .ok (.text "Hi") ∧
    FileData.bytes "Hi" ≠ FileData.text "Hi" := by decide

/-- C6 as amended: with no variables argument, `getFileContent` returns
the raw file content unchanged as a Buffer of bytes (no encoding is
passed to `fs.readFileSync`), not decoded to a string. -/
theorem getFileContent_no_vars_returns_buffer (content : String) :
    getFileContent content none = .ok (.bytes content) := rfl

/-- C7: rendering substitutes `${name}` placeholders against the
mapping in a single pass: "Hello ${name}" with name ↦ "Sam" gives
"Hello Sam", and a substituted value containing placeholder syntax is
not expanded again. -/
theorem getFileContent_interpolates :
    getFileContent "Hello ${name}" (some [("name", "Sam")]) =
      .ok (.text "Hello Sam") ∧
    getFileContent "A${x}B" (some [("x", "${y}"), ("y", "Z")]) =
      .ok (.text "A${y}B") := by decide

/-- C9 counterexample: the claim fails in two ways.  With
template "Hello ${name}" and the empty mapping — which supplies no
placeholder referenced in the template — rendering raises a reference
error instead of returning the content unchanged; and for a template
with no placeholders at all ("Hi"), the variable call returns a string
while the no-variable call returns a Buffer, so the two results are not
byte-for-byte equal values. -/
theorem render_unreferenced_vars_counterexample :
    getFileContent "Hello ${name}" (some []) =
      .error (.referenceError "name") ∧
    getFileContent "Hello ${name}" none =
      .ok (.bytes "Hello ${name}") ∧
    getFileContent "Hi" (some []) = .ok (.text "Hi") ∧
    getFileContent "Hi" none = .ok (.bytes "Hi") ∧
    getFileContent "Hi" (some []) ≠ getFileContent "Hi" none := by
  decide

/-- C9 as amended: for a template with no placeholder references,
rendering with any variable mapping returns the content unchanged as a
string whose text equals the raw content, while the no-variable call
returns the same content as a raw Buffer; the texts agree but the
values differ in kind (string vs Buffer). -/
theorem getFileContent_no_placeholders (tmpl : String) (vars : VarMap)
    (h : refsOf (tokenize tmpl.data) = []) :
    getFileContent tmpl (some vars) = .ok (.text tmpl) ∧
    getFileContent tmpl none = .ok (.bytes tmpl) := by
  refine ⟨?_, rfl⟩
  have h1 := interpolate_of_refs_nil vars _ h
  rw [flattenToks_tokenize] at h1
  simp [getFileContent, h1, Except.map, asString_data]

/-- Witness for C9 as amended, at template "Hi" and a nonempty unused
mapping. -/
theorem getFileContent_no_placeholders_witness :
    getFileContent "Hi" (some [("x", "1")]) = .ok (.text "Hi") ∧
    getFileContent "Hi" none = .ok (.bytes "Hi") :=
  getFileContent_no_placeholders "Hi" [("x", "1")] (by decide)

/-!
Marker-based file editing (`editFile` / `insertToFile` /
`removeFromFile`, utils.js lines 34-61).

Modelled from the spec: the `editer` module is a dependency whose code
is not in `src/`.  Per the spec (§4.5), insert "locates the anchor
described in `options` (an exact substring ... plus a relative position
— before/after) within the current content and splices `text` into that
position ... fails (fatal) if the anchor is not found", and remove
"locates an occurrence of `text` ... and deletes it from the content;
fails (fatal) if not found".  The exact splice position (e.g. line-based
placement) is abstracted: only where the result is spliced relative to
the first anchor occurrence is modelled, which the claims do not
depend on. -/

/-- The anchor description passed as `options`: an exact substring plus
a before/after position. -/
structure EditOptions where
  anchor : String
  before : Bool
deriving DecidableEq, Repr

/-- The fatal error editer raises when the anchor (or the text to
delete) is not found in the content. -/
inductive EditerError where
  | notFound
deriving DecidableEq, Repr

/-- Split `hay` around the first occurrence of `needle`:
`some (pre, post)` with `hay = pre ++ needle ++ post` and `pre` minimal,
or `none` when `needle` does not occur. -/
def splitFirst (needle : List Char) : List Char → Option (List Char × List Char)
  | [] => if needle = [] then some ([], []) else none
  | c :: rest =>
      if needle.isPrefixOf (c :: rest) then
        some ([], (c :: rest).drop needle.length)
      else
        match splitFirst needle rest with
        | some (pre, post) => some (c :: pre, post)
        | none => none

/-- `editer.insert(string, content, options)`: splice `string` before or
after the first occurrence of the anchor; fatal if the anchor is not
found. -/
def editerInsert (string content : String) (opts : EditOptions) :
    Except EditerError String :=
  match splitFirst opts.anchor.data content.data with
  | none => .error .notFound
  | some (pre, post) =>
      if opts.before then
        .ok ((pre ++ string.data ++ opts.anchor.data ++ post).asString)
      else
        .ok ((pre ++ opts.anchor.data ++ string.data ++ post).asString)

/-- `editer.remove(string, content, options)`: delete the first
occurrence of `string` from the content; fatal if it is not found. -/
def editerRemove (string content : String) (opts : EditOptions) :
    Except EditerError String :=
  match splitFirst string.data content.data with
  | none => .error .notFound
  | some (pre, post) => .ok ((pre ++ post).asString)

/-- `editFile(type, pathToFile, string, options)` (utils.js lines
34-45): reads the file (`fileContent`), computes `updatedContent` — a
variable that is assigned only in the `type === 'insert'` and
`type === 'remove'` branches and otherwise stays `undefined` — and
writes it back.  The result is the content handed to `writeFileSync`
(`none` models `undefined`); an error thrown by editer propagates and
no write happens. -/
def editFile (type : String) (fileContent : String) (string : String)
    (options : EditOptions) : Except EditerError (Option String) :=
  if type = "insert" then
    (editerInsert string fileContent options).map some
  else if type = "remove" then
    (editerRemove string fileContent options).map some
  else
    .ok none

/-- `insertToFile(pathToFile, string, options)` (utils.js lines
55-57). -/
def insertToFile (fileContent : String) (string : String)
    (options : EditOptions) : Except EditerError (Option String) :=
  editFile "insert" fileContent string options

/-- `removeFromFile(pathToFile, string, options)` (utils.js lines
59-61). -/
def removeFromFile (fileContent : String) (string : String)
    (options : EditOptions) : Except EditerError (Option String) :=
  editFile "remove" fileContent string options

end MantraCli

namespace MantraCli

/-- C8: editing fails rather than silently leaving the file unchanged:
`insertToFile` errors when the anchor does not occur in the file's
content, and `removeFromFile` errors when the text to delete does not
occur. -/
theorem edit_fails_when_anchor_missing (content s : String)
    (opts : EditOptions) :
    (splitFirst opts.anchor.data content.data = none →
      insertToFile content s opts = .error .notFound) ∧
    (splitFirst s.data content.data = none →
      removeFromFile content s opts = .error .notFound) := by
  constructor <;> intro h
  · simp [insertToFile, editFile, editerInsert, h, Except.map]
  · simp [removeFromFile, editFile, editerRemove, h, Except.map]

/-- Witness for C8: inserting at anchor "ANCHOR" and removing "X" both
fail on content "hello world", which contains neither. -/
theorem edit_fails_when_anchor_missing_witness :
    insertToFile "hello world" "X" { anchor := "ANCHOR", before := false } =
      .error .notFound ∧
    removeFromFile "hello world" "X" { anchor := "ANCHOR", before := false } =
      .error .notFound :=
  ⟨(edit_fails_when_anchor_missing "hello world" "X"
      { anchor := "ANCHOR", before := false }).1 (by decide),
   (edit_fails_when_anchor_missing "hello world" "X"
      { anchor := "ANCHOR", before := false }).2 (by decide)⟩

/-- C10: through the public interface the written content is never
`undefined`: whenever `insertToFile` or `removeFromFile` reaches the
write, the content is a defined string — the `editFile` branch that
leaves `updatedContent` undefined is taken only for a `type` value
neither entry point passes. -/
theorem editFile_public_writes_defined (content s : String)
    (opts : EditOptions) :
    (∀ o, insertToFile content s opts = .ok o → o.isSome = true) ∧
    (∀ o, removeFromFile content s opts = .ok o → o.isSome = true) ∧
    editFile "bogus" content s opts = .ok none := by
  refine ⟨?_, ?_, rfl⟩ <;> intro o h
  · rw [insertToFile, editFile, if_pos rfl] at h
    rcases hi : editerInsert s content opts with e | v <;> rw [hi] at h <;>
      simp [Except.map] at h
    simp [← h]
  · rw [removeFromFile, editFile, if_neg (by decide), if_pos rfl] at h
    rcases hi : editerRemove s content opts with e | v <;> rw [hi] at h <;>
      simp [Except.map] at h
    simp [← h]

end MantraCli

namespace MantraCli

/-- C1: the merge step of `generateConfig` keeps every overridden key at
its override value, keeps every absent key at its default, and in
particular merging `{tabSize: 4}` gives `{tabSize: 4, storybook: false}`. -/
theorem generateConfig_merges (o : Overrides) :
    (∀ v, o.tabSize = some v →
      (generateConfig DEFAULT_CONFIG o).1.tabSize = v) ∧
    (o.tabSize = none →
      (generateConfig DEFAULT_CONFIG o).1.tabSize = 2) ∧
    (∀ b, o.storybook = some b →
      (generateConfig DEFAULT_CONFIG o).1.storybook = b) ∧
    (o.storybook = none →
      (generateConfig DEFAULT_CONFIG o).1.storybook = false) ∧
    (generateConfig DEFAULT_CONFIG
      { tabSize := some 4, storybook := none }).1 =
      { tabSize := 4, storybook := false } := by
  refine ⟨fun v hv => ?_, fun hn => ?_, fun b hb => ?_, fun hn => ?_, rfl⟩ <;>
    simp [generateConfig, lodashAssign, lodashClone, DEFAULT_CONFIG, *]

/-- Witness for C1 at the concrete override `{tabSize: 4}`. -/
theorem generateConfig_merges_witness :
    (generateConfig DEFAULT_CONFIG
      { tabSize := some 4, storybook := none }).1.tabSize = 4 ∧
    (generateConfig DEFAULT_CONFIG
      { tabSize := some 4, storybook := none }).1.storybook = false :=
  ⟨(generateConfig_merges { tabSize := some 4, storybook := none }).1 4 rfl,
   (generateConfig_merges
      { tabSize := some 4, storybook := none }).2.2.2.1 rfl⟩

/-- C2 (code bug): `readConfig` does not copy the default before
applying overrides.  `let config = DEFAULT_CONFIG` aliases the global
object and `_.assign(config, userConfig)` mutates it in place: after a
call that finds `./mantra_cli.yaml` containing `tabSize: 4`, the
`DEFAULT_CONFIG` object holds `{tabSize: 4, storybook: false}`, no
longer its compile-time value.  (`generateConfig`, by contrast, does
clone and leaves the default unchanged.) -/
theorem readConfig_mutates_default :
    readConfig none (.ok { tabSize := some 4, storybook := none })
        DEFAULT_CONFIG =
      .ok ({ tabSize := 4, storybook := false },
           { tabSize := 4, storybook := false }) ∧
    ({ tabSize := 4, storybook := false } : Config) ≠ DEFAULT_CONFIG ∧
    (∀ defaultObj o, (generateConfig defaultObj o).2 = defaultObj) := by
  exact ⟨rfl, by decide, fun _ _ => rfl⟩

/-- C3 (code bug): because `readConfig` mutates `DEFAULT_CONFIG`, a
later invocation with the config file absent returns the corrupted
object `{tabSize: 4, storybook: false}`, not the default —
contradicting `readConfig`'s own doc comment ("Otherwise, it returns a
default config object").  On the very first invocation with the file
absent the default is still returned. -/
theorem readConfig_absent_after_mutation :
    readConfig none (.ok { tabSize := some 4, storybook := none })
        DEFAULT_CONFIG =
      .ok ({ tabSize := 4, storybook := false },
           { tabSize := 4, storybook := false }) ∧
    readConfig (some { code := "ENOENT" })
        (.ok { tabSize := none, storybook := none })
        { tabSize := 4, storybook := false } =
      .ok ({ tabSize := 4, storybook := false },
           { tabSize := 4, storybook := false }) ∧
    ({ tabSize := 4, storybook := false } : Config) ≠ DEFAULT_CONFIG ∧
    readConfig (some { code := "ENOENT" })
        (.ok { tabSize := none, storybook := none }) DEFAULT_CONFIG =
      .ok (DEFAULT_CONFIG, DEFAULT_CONFIG) := by
  exact ⟨rfl, rfl, by decide, rfl⟩

/-- C4: during config loading only ENOENT is recovered.
`checkFileExists` returns `false` exactly when `lstatSync` threw with
code ENOENT, returns `true` on success, and rethrows every other error;
`readConfig` propagates non-ENOENT filesystem errors and every YAML
parse error. -/
theorem checkFileExists_only_enoent (stat : StatOutcome) :
    (checkFileExists stat = .ok false ↔
      ∃ e, stat = some e ∧ e.code = "ENOENT") ∧
    (stat = none → checkFileExists stat = .ok true) ∧
    (∀ e, stat = some e → e.code ≠ "ENOENT" →
      checkFileExists stat = .error e) ∧
    (∀ e msg defaultObj, e.code ≠ "ENOENT" →
      readConfig (some e) (.error msg) defaultObj =
        .error (.fsError e)) ∧
    (∀ msg defaultObj,
      readConfig none (.error msg) defaultObj =
        .error (.yamlError msg)) := by
  refine ⟨?_, ?_, ?_, ?_, ?_⟩
  · constructor
    · intro h
      match stat with
      | none => simp [checkFileExists] at h
      | some e =>
          refine ⟨e, rfl, ?_⟩
          by_contra hc
          simp [checkFileExists, hc] at h
    · rintro ⟨e, rfl, hc⟩
      simp [checkFileExists, hc]
  · rintro rfl; rfl
  · rintro e rfl hc
    simp [checkFileExists, hc]
  · intro e msg defaultObj hc
    simp [readConfig, checkFileExists, hc]
  · intro msg defaultObj
    rfl

/-- Witness for C4: a permission-denied stat error (code EACCES) is
rethrown by `checkFileExists` and propagates out of `readConfig`, and an
ENOENT error yields `false`. -/
theorem checkFileExists_only_enoent_witness :
    checkFileExists (some { code := "ENOENT" }) = .ok false ∧
    checkFileExists none = .ok true ∧
    checkFileExists (some { code := "EACCES" }) =
      .error { code := "EACCES" } ∧
    readConfig (some { code := "EACCES" }) (.error "bad yaml")
        DEFAULT_CONFIG = .error (.fsError { code := "EACCES" }) ∧
    readConfig none (.error "bad yaml") DEFAULT_CONFIG =
      .error (.yamlError "bad yaml") :=
  ⟨(checkFileExists_only_enoent
      (some { code := "ENOENT" })).1.2 ⟨_, rfl, rfl⟩,
   (checkFileExists_only_enoent none).2.1 rfl,
   (checkFileExists_only_enoent
      (some { code := "EACCES" })).2.2.1 _ rfl (by decide),
   (checkFileExists_only_enoent
      (some { code := "EACCES" })).2.2.2.1 _ "bad yaml" DEFAULT_CONFIG
      (by decide),
   (checkFileExists_only_enoent none).2.2.2.2 "bad yaml" DEFAULT_CONFIG⟩

end MantraCli
